import Mathlib

/-!
Verification development for the Automated-Research-Report-Generation
utility modules: a shallow embedding of `src/utlis/config_loader.py` and
`src/logger/custom_logger.py`, with theorems about path resolution,
YAML-document normalization, error wrapping/logging, and the one-time
logger configuration guard.
-/

/-- A filesystem path: an `absolute` flag plus the list of path components.
The empty relative path `⟨false, []⟩` plays the role of the empty string. -/
structure PPath where
  absolute : Bool
  comps : List String
deriving DecidableEq, Repr

/-- The empty path string (`""`): relative with no components.  Python treats
it as falsy in `env_path or default`. -/
def emptyPathStr : PPath := ⟨false, []⟩

/-- `pathlib`'s `/` operator: if the right operand is absolute it replaces the
left entirely, otherwise the components are appended. -/
def PPath.join (p q : PPath) : PPath :=
  if q.absolute then q else ⟨p.absolute, p.comps ++ q.comps⟩

/-- `os.path.dirname` / `pathlib` `.parent`: drop the last component. -/
def PPath.dirname (p : PPath) : PPath := ⟨p.absolute, p.comps.dropLast⟩

/-- Render a path as the string Python would interpolate into messages. -/
def PPath.render (p : PPath) : String :=
  (if p.absolute then "/" else "") ++ String.intercalate "/" p.comps

/-- Normalization of `"."` and `".."` components, as `os.path.abspath` does
after a join (a `".."` above the root of an absolute path stays at the root,
matching POSIX semantics on `List.dropLast []`). -/
def normComps (cs : List String) : List String :=
  cs.foldl (fun acc c =>
    if c = ".." then acc.dropLast else if c = "." then acc else acc ++ [c]) []

/-- `_project_root_dir` from `src/utlis/config_loader.py`:
`Path(__file__).resolve().parents[1]`, i.e. the grandparent of the module
file.  `.resolve()` yields an absolute path, so the result is marked
absolute, with `parents[1]` dropping the file name and one directory. -/
def projectRootDir (moduleFile : PPath) : PPath :=
  ⟨true, moduleFile.comps.dropLast.dropLast⟩

/-- The logger's root computation from `src/logger/custom_logger.py`:
`os.path.abspath(os.path.join(os.path.dirname(__file__), "..", ".."))`. -/
def loggerRootDir (loggerFile : PPath) : PPath :=
  ⟨true, normComps (loggerFile.comps.dropLast ++ [".."] ++ [".."])⟩

/-- Location of `config_loader.py` inside a checkout of the repository. -/
def cfgLoaderFile (repoRoot : PPath) : PPath :=
  repoRoot.join ⟨false, ["src", "utlis", "config_loader.py"]⟩

/-- Location of `custom_logger.py` inside a checkout of the repository. -/
def customLoggerFile (repoRoot : PPath) : PPath :=
  repoRoot.join ⟨false, ["src", "logger", "custom_logger.py"]⟩

/-- The default configuration path
`_project_root_dir() / "config" / "configuration.yaml"`. -/
def defaultConfigPath (moduleFile : PPath) : PPath :=
  (projectRootDir moduleFile).join ⟨false, ["config", "configuration.yaml"]⟩

/-- `path = Path(config_path); if not path.is_absolute(): path = root / path`. -/
def rebase (root p : PPath) : PPath :=
  if p.absolute then p else root.join p

/-- Path resolution of `load_config` (steps 1–2): explicit argument if given,
else the `CONFIG_PATH` value when truthy (`env_path or default`), else the
default; the selected path is then rebased onto the project root when it is
relative. -/
def resolveConfigPath (moduleFile : PPath) (explicit env : Option PPath) : PPath :=
  let root := projectRootDir moduleFile
  let cp : PPath :=
    match explicit with
    | some p => p
    | none =>
      match env with
      | some e => if e = emptyPathStr then defaultConfigPath moduleFile else e
      | none => defaultConfigPath moduleFile
  rebase root cp

/-- A parsed YAML document, as `yaml.safe_load` produces it. -/
inductive Yaml where
  | null
  | bool (b : Bool)
  | int (n : Int)
  | str (s : String)
  | seq (xs : List Yaml)
  | map (kvs : List (String × Yaml))

/-- Python truthiness of a parsed YAML value, as used by
`yaml.safe_load(f) or {}`. -/
def Yaml.truthy : Yaml → Bool
  | .null => false
  | .bool b => b
  | .int n => n != 0
  | .str s => !(s == "")
  | .seq xs => !xs.isEmpty
  | .map kvs => !kvs.isEmpty

/-- Whether a value is a mapping (`isinstance(config, dict)`). -/
def Yaml.isMapping : Yaml → Bool
  | .map _ => true
  | _ => false

/-- `list(config.keys()) if isinstance(config, dict) else []`. -/
def Yaml.topKeys : Yaml → List String
  | .map kvs => kvs.map Prod.fst
  | _ => []

/-- Python exceptions that the loader's `open`/`yaml.safe_load`/existence
check can produce. -/
inductive PyErr where
  | fileNotFound (path : PPath)
  | yamlError (msg : String)
  | osError (msg : String)
deriving DecidableEq, Repr

/-- `str(e)` for the exceptions above; the loader's own `FileNotFoundError`
carries the message `f"Config file not found: \x7bpath\x7d"`. -/
def PyErr.toMsg : PyErr → String
  | .fileNotFound p => "Config file not found: " ++ p.render
  | .yamlError m => m
  | .osError m => m

/-- Modelled from the spec: `src/exceptions/custom_exception.py` is imported
by the config loader but is not among the sources.  Per the spec the wrapped
error type carries a fixed human-readable message and the original underlying
error as context. -/
structure CustomException where
  message : String
  cause : PyErr
deriving DecidableEq, Repr

/-- The log events emitted by `load_config` through the structured logger:
`log.error("Configuration file not found:", path=...)`,
`log.info("Configuration loaded successfully", path=..., keys=...)`, and
`log.error("Failed to load configuration", error=str(e))`. -/
inductive LogEvent where
  | errNotFound (path : PPath)
  | infoLoaded (path : PPath) (keys : List String)
  | errFailed (errMsg : String)
deriving DecidableEq, Repr

/-- Whether a log event was emitted via `log.error`. -/
def LogEvent.isError : LogEvent → Bool
  | .errNotFound _ => true
  | .errFailed _ => true
  | .infoLoaded _ _ => false

/-- `load_config` from `src/utlis/config_loader.py`.  The ambient state is
passed explicitly: the module's resolved location, the `CONFIG_PATH`
environment value, the filesystem existence predicate, and the combined
`open` + `yaml.safe_load` step (an oracle returning either the parsed
document or the exception it raises).  The result pairs the value returned
to the caller (or the wrapped exception that escapes) with the list of log
events emitted, in order. -/
def load_config (moduleFile : PPath) (explicit env : Option PPath)
    (fsExists : PPath → Bool) (openAndParse : PPath → Except PyErr Yaml) :
    Except CustomException Yaml × List LogEvent :=
  let path := resolveConfigPath moduleFile explicit env
  if fsExists path then
    match openAndParse path with
    | .ok y =>
      let config := if y.truthy then y else Yaml.map []
      (Except.ok config, [LogEvent.infoLoaded path config.topKeys])
    | .error e =>
      (Except.error ⟨"Failed to load configuration file", e⟩,
       [LogEvent.errFailed e.toMsg])
  else
    let e := PyErr.fileNotFound path
    (Except.error ⟨"Failed to load configuration file", e⟩,
     [LogEvent.errNotFound path, LogEvent.errFailed e.toMsg])

/-- State of the process-wide logging configuration guarded by
`CustomLogger._configured`: the flag, how many times `_configure` has run,
and the path wired to the live `FileHandler` (if any). -/
structure TLoggerState where
  configured : Bool
  configureCount : Nat
  liveSink : Option PPath
deriving DecidableEq, Repr

/-- The state before the first `CustomLogger()` construction. -/
def freshLoggerState : TLoggerState := ⟨false, 0, none⟩

/-- The timestamped log file path a construction computes:
`os.path.join(root_dir, log_dir, f"log_\x7bts\x7d.log")`. -/
def logFilePath (root : PPath) (logDirName ts : String) : PPath :=
  (root.join ⟨false, [logDirName]⟩).join ⟨false, ["log_" ++ ts ++ ".log"]⟩

/-- One `CustomLogger.__init__` call: always computes a fresh timestamped
path; runs `_configure` (installing the file sink at that path) only when
the class-level flag is still unset. -/
def loggerInit (root : PPath) (logDirName ts : String) (s : TLoggerState) :
    TLoggerState × PPath :=
  let p := logFilePath root logDirName ts
  if s.configured then (s, p)
  else (⟨true, s.configureCount + 1, some p⟩, p)

/-- Run a sequence of constructions (one timestamp per construction),
returning the final state and every computed file path. -/
def runConstructions (root : PPath) (logDirName : String) :
    List String → TLoggerState → TLoggerState × List PPath
  | [], s => (s, [])
  | ts :: rest, s =>
    let r1 := loggerInit root logDirName ts s
    let r2 := runConstructions root logDirName rest r1.1
    (r2.1, r1.2 :: r2.2)

/-- A concrete checkout location, used for concrete evaluations. -/
def repoRootC : PPath :=
  ⟨true, ["home", "user", "Automated-Research-Report-Generation"]⟩

/-- The resolved location of `config_loader.py` in that checkout. -/
def mfC : PPath := cfgLoaderFile repoRootC

/-- A concrete relative explicit path. -/
def pExpC : PPath := ⟨false, ["custom", "a.yaml"]⟩

/-- A concrete absolute environment path. -/
def pEnvC : PPath := ⟨true, ["etc", "app.yaml"]⟩

/-- C2: the claim asserts that the config loader's project root (grandparent
of its own file, `parents[1]`) equals the root the logger computes
(`abspath(join(dirname(__file__), "..", ".."))`).  Evaluating both at a
concrete checkout shows they differ: the loader lands on `<repo>/src`, the
logger on `<repo>`, contradicting `_project_root_dir`'s own docstring whose
example names the repository directory itself. -/
theorem config_and_logger_roots_diverge :
  projectRootDir (cfgLoaderFile repoRootC)
      = ⟨true, ["home", "user", "Automated-Research-Report-Generation", "src"]⟩
  ∧ loggerRootDir (customLoggerFile repoRootC)
      = ⟨true, ["home", "user", "Automated-Research-Report-Generation"]⟩
  ∧ projectRootDir (cfgLoaderFile repoRootC)
      ≠ loggerRootDir (customLoggerFile repoRootC) := by
  refine ⟨by decide, by decide, by decide⟩

/-- C9: with `CONFIG_PATH` set to the empty string and no explicit argument,
`env_path or default` discards the environment value (Python truthiness),
so resolution falls through to the default path, exactly as when the
variable is unset. -/
theorem empty_env_value_falls_through_to_default (mf : PPath) :
  resolveConfigPath mf none (some emptyPathStr) = defaultConfigPath mf
  ∧ resolveConfigPath mf none (some emptyPathStr)
      = resolveConfigPath mf none none := ⟨rfl, rfl⟩

/-- C1 counterexample: with `CONFIG_PATH` set (to the empty string) and no
explicit argument, the claim says the environment value is the path used;
the code instead uses the default path, which is neither the raw nor the
rebased environment value. -/
theorem empty_env_set_but_ignored :
  resolveConfigPath mfC none (some emptyPathStr) = defaultConfigPath mfC
  ∧ resolveConfigPath mfC none (some emptyPathStr)
      ≠ rebase (projectRootDir mfC) emptyPathStr
  ∧ resolveConfigPath mfC none (some emptyPathStr) ≠ emptyPathStr := by
  refine ⟨rfl, by decide, by decide⟩

/-- C1 (amended): the path used for loading follows the precedence
explicit argument → `CONFIG_PATH` when set to a non-empty string → default
`<project_root>/config/configuration.yaml`, each candidate rebased onto the
computed project root when relative. -/
theorem load_config_path_precedence (mf : PPath) (explicit env : Option PPath) :
  (∀ p, explicit = some p →
      resolveConfigPath mf explicit env = rebase (projectRootDir mf) p)
  ∧ (∀ e, explicit = none → env = some e → e ≠ emptyPathStr →
      resolveConfigPath mf explicit env = rebase (projectRootDir mf) e)
  ∧ (explicit = none → (env = none ∨ env = some emptyPathStr) →
      resolveConfigPath mf explicit env = defaultConfigPath mf) := by
  refine ⟨?_, ?_, ?_⟩
  · intro p hp; subst hp; rfl
  · intro e hx he hne; subst hx; subst he
    simp [resolveConfigPath, if_neg hne]
  · intro hx henv; subst hx
    rcases henv with h | h <;> subst h <;> rfl

/-- C1 witness: the three precedence branches evaluated at concrete inputs. -/
theorem load_config_path_precedence_witness :
  resolveConfigPath mfC (some pExpC) (some pEnvC) = rebase (projectRootDir mfC) pExpC
  ∧ resolveConfigPath mfC none (some pEnvC) = rebase (projectRootDir mfC) pEnvC
  ∧ resolveConfigPath mfC none none = defaultConfigPath mfC :=
  ⟨(load_config_path_precedence mfC (some pExpC) (some pEnvC)).1 pExpC rfl,
   (load_config_path_precedence mfC none (some pEnvC)).2.1 pEnvC rfl rfl (by decide),
   (load_config_path_precedence mfC none none).2.2 rfl (Or.inl rfl)⟩

/-- C7: a relative path, whether given as the explicit argument or via
`CONFIG_PATH`, is rebased onto the computed project root (the resolution
never consults a working directory); an absolute path is used unchanged. -/
theorem relative_paths_rebased_onto_project_root
    (mf p e : PPath) (env : Option PPath) :
  (p.absolute = false →
      resolveConfigPath mf (some p) env = PPath.join (projectRootDir mf) p)
  ∧ (p.absolute = true → resolveConfigPath mf (some p) env = p)
  ∧ (e.absolute = false → e ≠ emptyPathStr →
      resolveConfigPath mf none (some e) = PPath.join (projectRootDir mf) e)
  ∧ (e.absolute = true → resolveConfigPath mf none (some e) = e) := by
  refine ⟨?_, ?_, ?_, ?_⟩
  · intro h; simp [resolveConfigPath, rebase, h]
  · intro h; simp [resolveConfigPath, rebase, h]
  · intro h hne; simp [resolveConfigPath, rebase, if_neg hne, h]
  · intro h
    have hne : e ≠ emptyPathStr := by
      intro hcontra; rw [hcontra] at h; exact Bool.false_ne_true h
    simp [resolveConfigPath, rebase, if_neg hne, h]

/-- C7 witness: a relative and an absolute path, through both channels. -/
theorem relative_paths_rebased_witness :
  resolveConfigPath mfC (some pExpC) none = PPath.join (projectRootDir mfC) pExpC
  ∧ resolveConfigPath mfC (some pEnvC) none = pEnvC
  ∧ resolveConfigPath mfC none (some pExpC) = PPath.join (projectRootDir mfC) pExpC
  ∧ resolveConfigPath mfC none (some pEnvC) = pEnvC :=
  ⟨(relative_paths_rebased_onto_project_root mfC pExpC pExpC none).1 rfl,
   (relative_paths_rebased_onto_project_root mfC pEnvC pEnvC none).2.1 rfl,
   (relative_paths_rebased_onto_project_root mfC pExpC pExpC none).2.2.1 rfl (by decide),
   (relative_paths_rebased_onto_project_root mfC pEnvC pEnvC none).2.2.2 rfl⟩

/-- The wrapped exception escaping a load of a missing default path. -/
def errNotFoundC : CustomException :=
  ⟨"Failed to load configuration file", PyErr.fileNotFound (defaultConfigPath mfC)⟩

/-- C3: whenever `load_config` fails, the exception reaching the caller is
the wrapped `CustomException` carrying the fixed message
`"Failed to load configuration file"` and, as its cause, the original
underlying error (the loader's own `FileNotFoundError` for a missing path,
otherwise whatever `open`/`yaml.safe_load` raised); the result type shows no
other exception kind escapes. -/
theorem load_config_wraps_all_failures (mf : PPath) (explicit env : Option PPath)
    (fsExists : PPath → Bool) (openAndParse : PPath → Except PyErr Yaml)
    (err : CustomException)
    (h : (load_config mf explicit env fsExists openAndParse).1 = Except.error err) :
  err.message = "Failed to load configuration file"
  ∧ ((fsExists (resolveConfigPath mf explicit env) = false
        ∧ err.cause = PyErr.fileNotFound (resolveConfigPath mf explicit env))
     ∨ (fsExists (resolveConfigPath mf explicit env) = true
        ∧ openAndParse (resolveConfigPath mf explicit env) = Except.error err.cause)) := by
  by_cases hf : fsExists (resolveConfigPath mf explicit env) = true
  · cases hp : openAndParse (resolveConfigPath mf explicit env) with
    | ok y => simp [load_config, hf, hp] at h
    | error e =>
      simp [load_config, hf, hp] at h
      subst h
      exact ⟨rfl, Or.inr ⟨hf, rfl⟩⟩
  · have hf' : fsExists (resolveConfigPath mf explicit env) = false :=
      Bool.eq_false_iff.mpr hf
    simp [load_config, hf'] at h
    subst h
    exact ⟨rfl, Or.inl ⟨hf', rfl⟩⟩

/-- C3 witness: a missing default path produces exactly the wrapped error. -/
theorem load_config_wraps_all_failures_witness :
  errNotFoundC.message = "Failed to load configuration file"
  ∧ (((fun _ => false) (resolveConfigPath mfC none none) = false
        ∧ errNotFoundC.cause = PyErr.fileNotFound (resolveConfigPath mfC none none))
     ∨ ((fun _ => false) (resolveConfigPath mfC none none) = true
        ∧ (fun _ => Except.ok Yaml.null) (resolveConfigPath mfC none none)
            = Except.error errNotFoundC.cause)) :=
  load_config_wraps_all_failures mfC none none (fun _ => false)
    (fun _ => Except.ok Yaml.null) errNotFoundC rfl

/-- C4 counterexample: for a non-existent explicit path, the loader logs the
"not found" error event inside the `try` block and then the generic
"Failed to load configuration" error event in the `except` block — two
error events, not exactly one, before the wrapped error reaches the caller. -/
theorem two_error_events_for_missing_path :
  ((load_config mfC (some pExpC) none (fun _ => false)
      (fun _ => Except.ok Yaml.null)).2.countP (fun ev => ev.isError)) = 2
  ∧ (load_config mfC (some pExpC) none (fun _ => false)
      (fun _ => Except.ok Yaml.null)).1
    = Except.error ⟨"Failed to load configuration file",
        PyErr.fileNotFound (rebase (projectRootDir mfC) pExpC)⟩ := by
  exact ⟨by decide, rfl⟩

/-- C4 (amended): when the read/parse step fails, exactly one error event is
logged before the wrapped error is re-raised; when the resolved path does
not exist, the "not found" event naming the missing path is logged exactly
once, but it is followed by the generic failure event, so two error events
precede the wrapped error. -/
theorem load_config_error_event_counts (mf : PPath) (explicit env : Option PPath)
    (fsExists : PPath → Bool) (openAndParse : PPath → Except PyErr Yaml) :
  (fsExists (resolveConfigPath mf explicit env) = false →
      (load_config mf explicit env fsExists openAndParse).2
        = [LogEvent.errNotFound (resolveConfigPath mf explicit env),
           LogEvent.errFailed
             (PyErr.fileNotFound (resolveConfigPath mf explicit env)).toMsg]
      ∧ ((load_config mf explicit env fsExists openAndParse).2.countP
           (fun ev => ev.isError)) = 2
      ∧ ((load_config mf explicit env fsExists openAndParse).2.count
           (LogEvent.errNotFound (resolveConfigPath mf explicit env))) = 1)
  ∧ (∀ e, fsExists (resolveConfigPath mf explicit env) = true →
      openAndParse (resolveConfigPath mf explicit env) = Except.error e →
      (load_config mf explicit env fsExists openAndParse).2
        = [LogEvent.errFailed e.toMsg]
      ∧ ((load_config mf explicit env fsExists openAndParse).2.countP
           (fun ev => ev.isError)) = 1) := by
  constructor
  · intro hf
    have h2 : (load_config mf explicit env fsExists openAndParse).2
        = [LogEvent.errNotFound (resolveConfigPath mf explicit env),
           LogEvent.errFailed
             (PyErr.fileNotFound (resolveConfigPath mf explicit env)).toMsg] := by
      simp [load_config, hf]
    refine ⟨h2, ?_, ?_⟩
    · rw [h2]; rfl
    · rw [h2]; simp [List.count_cons]
  · intro e hf hp
    have h2 : (load_config mf explicit env fsExists openAndParse).2
        = [LogEvent.errFailed e.toMsg] := by
      simp [load_config, hf, hp]
    exact ⟨h2, by rw [h2]; rfl⟩

/-- C4 witness: both branches of the amended statement at concrete inputs. -/
theorem load_config_error_event_counts_witness :
  ((load_config mfC (some pEnvC) none (fun _ => false)
      (fun _ => Except.ok Yaml.null)).2
        = [LogEvent.errNotFound pEnvC,
           LogEvent.errFailed (PyErr.fileNotFound pEnvC).toMsg]
    ∧ ((load_config mfC (some pEnvC) none (fun _ => false)
        (fun _ => Except.ok Yaml.null)).2.countP (fun ev => ev.isError)) = 2
    ∧ ((load_config mfC (some pEnvC) none (fun _ => false)
        (fun _ => Except.ok Yaml.null)).2.count (LogEvent.errNotFound pEnvC)) = 1)
  ∧ ((load_config mfC (some pEnvC) none (fun _ => true)
      (fun _ => Except.error (PyErr.yamlError "bad yaml"))).2
        = [LogEvent.errFailed (PyErr.yamlError "bad yaml").toMsg]
    ∧ ((load_config mfC (some pEnvC) none (fun _ => true)
        (fun _ => Except.error (PyErr.yamlError "bad yaml"))).2.countP
          (fun ev => ev.isError)) = 1) :=
  ⟨(load_config_error_event_counts mfC (some pEnvC) none (fun _ => false)
      (fun _ => Except.ok Yaml.null)).1 rfl,
   (load_config_error_event_counts mfC (some pEnvC) none (fun _ => true)
      (fun _ => Except.error (PyErr.yamlError "bad yaml"))).2
      (PyErr.yamlError "bad yaml") rfl rfl⟩

/-- C6: an existing, readable file whose contents parse to the empty YAML
document (`yaml.safe_load` returns `None`) makes `load_config` return the
empty mapping — never a missing/undefined value — and raise nothing; the
success event logs an empty key list. -/
theorem empty_document_yields_empty_mapping (mf : PPath) (explicit env : Option PPath)
    (fsExists : PPath → Bool) (openAndParse : PPath → Except PyErr Yaml)
    (hex : fsExists (resolveConfigPath mf explicit env) = true)
    (hp : openAndParse (resolveConfigPath mf explicit env) = Except.ok Yaml.null) :
  (load_config mf explicit env fsExists openAndParse).1 = Except.ok (Yaml.map [])
  ∧ (load_config mf explicit env fsExists openAndParse).2
      = [LogEvent.infoLoaded (resolveConfigPath mf explicit env) []] := by
  constructor <;> simp [load_config, hex, hp, Yaml.truthy, Yaml.topKeys]

/-- C6 witness: the empty document at the default path. -/
theorem empty_document_yields_empty_mapping_witness :
  (load_config mfC none none (fun _ => true) (fun _ => Except.ok Yaml.null)).1
      = Except.ok (Yaml.map [])
  ∧ (load_config mfC none none (fun _ => true) (fun _ => Except.ok Yaml.null)).2
      = [LogEvent.infoLoaded (resolveConfigPath mfC none none) []] :=
  empty_document_yields_empty_mapping mfC none none (fun _ => true)
    (fun _ => Except.ok Yaml.null) rfl rfl

/-- C8 counterexample: a document parsing to the truthy non-mapping `[1]` is
returned as-is by `load_config` — the returned value is not a mapping, so
"the value it returns is a mapping" fails; only falsy documents are
normalized to the empty mapping. -/
theorem truthy_non_mapping_returned_as_is :
  (load_config mfC none none (fun _ => true)
      (fun _ => Except.ok (Yaml.seq [Yaml.int 1]))).1
    = Except.ok (Yaml.seq [Yaml.int 1])
  ∧ (Yaml.seq [Yaml.int 1]).isMapping = false := ⟨rfl, rfl⟩

/-- C8 (amended): a successful load returns the parsed document unchanged
when the document is truthy — even when it is not a mapping — and the empty
mapping when the document is falsy; the normalization to "no keys" applies
only to the key list recorded in the success log event. -/
theorem load_config_success_shape (mf : PPath) (explicit env : Option PPath)
    (fsExists : PPath → Bool) (openAndParse : PPath → Except PyErr Yaml)
    (v : Yaml)
    (h : (load_config mf explicit env fsExists openAndParse).1 = Except.ok v) :
  ((openAndParse (resolveConfigPath mf explicit env) = Except.ok v
      ∧ v.truthy = true)
    ∨ v = Yaml.map [])
  ∧ (load_config mf explicit env fsExists openAndParse).2
      = [LogEvent.infoLoaded (resolveConfigPath mf explicit env) v.topKeys] := by
  by_cases hf : fsExists (resolveConfigPath mf explicit env) = true
  · cases hp : openAndParse (resolveConfigPath mf explicit env) with
    | ok y =>
      by_cases ht : y.truthy = true
      · have hv : v = y := by simp [load_config, hf, hp, ht] at h; exact h.symm
        subst hv
        exact ⟨Or.inl ⟨rfl, ht⟩, by simp [load_config, hf, hp, ht]⟩
      · have ht' : y.truthy = false := Bool.eq_false_iff.mpr ht
        have hv : v = Yaml.map [] := by
          simp [load_config, hf, hp, ht'] at h; exact h.symm
        subst hv
        exact ⟨Or.inr rfl, by simp [load_config, hf, hp, ht', Yaml.topKeys]⟩
    | error e => simp [load_config, hf, hp] at h
  · have hf' : fsExists (resolveConfigPath mf explicit env) = false :=
      Bool.eq_false_iff.mpr hf
    simp [load_config, hf'] at h

/-- C8 witness: a truthy mapping is returned unchanged with its keys logged. -/
theorem load_config_success_shape_witness :
  (((Except.ok (Yaml.map [("a", Yaml.int 1)]) : Except PyErr Yaml)
      = Except.ok (Yaml.map [("a", Yaml.int 1)])
      ∧ (Yaml.map [("a", Yaml.int 1)]).truthy = true)
    ∨ Yaml.map [("a", Yaml.int 1)] = Yaml.map [])
  ∧ (load_config mfC none none (fun _ => true)
      (fun _ => Except.ok (Yaml.map [("a", Yaml.int 1)]))).2
      = [LogEvent.infoLoaded (resolveConfigPath mfC none none)
          (Yaml.map [("a", Yaml.int 1)]).topKeys] :=
  load_config_success_shape mfC none none (fun _ => true)
    (fun _ => Except.ok (Yaml.map [("a", Yaml.int 1)]))
    (Yaml.map [("a", Yaml.int 1)]) rfl

/-- C10: any parsed document that is falsy under Python truthiness — the
scalar `false`, the scalar `0`, the empty string, an empty sequence or
mapping — is normalized by `config = yaml.safe_load(f) or \x7b\x7d` to the
empty mapping, exactly like the empty document. -/
theorem falsy_document_yields_empty_mapping (mf : PPath) (explicit env : Option PPath)
    (fsExists : PPath → Bool) (openAndParse : PPath → Except PyErr Yaml)
    (y : Yaml)
    (hex : fsExists (resolveConfigPath mf explicit env) = true)
    (hp : openAndParse (resolveConfigPath mf explicit env) = Except.ok y)
    (hf : y.truthy = false) :
  (load_config mf explicit env fsExists openAndParse).1
      = Except.ok (Yaml.map []) := by
  simp [load_config, hex, hp, hf]

/-- C10 witness: the scalar `false` document yields the empty mapping. -/
theorem falsy_document_yields_empty_mapping_witness :
  (load_config mfC none none (fun _ => true)
      (fun _ => Except.ok (Yaml.bool false))).1 = Except.ok (Yaml.map []) :=
  falsy_document_yields_empty_mapping mfC none none (fun _ => true)
    (fun _ => Except.ok (Yaml.bool false)) (Yaml.bool false) rfl rfl rfl

/-- Once the `_configured` flag is set, further constructions leave the
state untouched while still computing fresh timestamped paths. -/
theorem runConstructions_configured (root : PPath) (d : String) (tss : List String)
    (s : TLoggerState) (h : s.configured = true) :
    runConstructions root d tss s = (s, tss.map (logFilePath root d)) := by
  induction tss with
  | nil => rfl
  | cons ts rest ih => simp [runConstructions, loggerInit, h, ih]

/-- C5: for any N ≥ 1 constructions of `CustomLogger`, `_configure` runs
exactly once — on the first construction — every construction computes its
own fresh timestamped file path, and only the first construction's path is
wired as the live file sink; every construction returns normally. -/
theorem logger_configures_exactly_once (root : PPath) (d ts0 : String)
    (rest : List String) :
  (runConstructions root d (ts0 :: rest) freshLoggerState).1
      = ⟨true, 1, some (logFilePath root d ts0)⟩
  ∧ (runConstructions root d (ts0 :: rest) freshLoggerState).2
      = (ts0 :: rest).map (logFilePath root d) := by
  have h1 : loggerInit root d ts0 freshLoggerState
      = (⟨true, 1, some (logFilePath root d ts0)⟩, logFilePath root d ts0) := rfl
  have h2 := runConstructions_configured root d rest
      (⟨true, 1, some (logFilePath root d ts0)⟩ : TLoggerState) rfl
  constructor <;> simp [runConstructions, h1, h2]
